import Mathlib

/-!
Verification development for the SMS-Backend soil-moisture alert service
(`server.js`).

The service is modelled as a shallow embedding:

* The outcome of each asynchronous collaborator call (the axios GET to the
  sensor endpoint, the MongoDB reads, the Twilio `messages.create`) is an
  explicit input to the function that performs it, so a run of a handler is
  a pure function of those outcomes.
* Sensor readings are integers (the sensor reports whole percentages; JS
  float formatting is out of scope).  A JSON payload whose `soilmoisture`
  field is absent destructures to `undefined` in JS, modelled as `none`;
  the JS comparison `undefined < 30` evaluates to `false` (NaN semantics),
  captured by `jsLt`.
* The MongoDB collection is a list of documents in insertion (natural)
  order; each document carries its `_id`, and ids assigned over time are
  strictly increasing, so `findOne()` is the head of the list and
  `findOne().sort(\x7b _id: -1 \x7d)` is the document with the greatest id.
* A thrown-and-caught JS error is an `Except.error` handled by the
  enclosing `try/catch`; a handler that catches without rethrowing yields
  `raised = false`.
-/

/-- A document of the `Farmer` collection: Mongo `_id` (modelled as a `Nat`
that grows with insertion time), optional `name`, and `phoneNumber`. -/
structure Doc where
  id : Nat
  name : Option String
  phoneNumber : String
  deriving DecidableEq, Repr

/-- The `Farmer` collection, in natural (insertion) order. -/
abbrev Store := List Doc

/-- Mongo ids are assigned in increasing order, so a store built by
insertions lists ids strictly increasing along insertion order. -/
def idsIncreasing : Store → Bool
  | [] => true
  | [_] => true
  | a :: b :: rest => a.id < b.id && idsIncreasing (b :: rest)

/-- `Farmer.findOne()` with no sort: first document in natural order. -/
def findOne (s : Store) : Option Doc := s.head?

/-- `Farmer.findOne().sort(\x7b _id: -1 \x7d)`: the document with the
greatest `_id`. -/
def findOneSortIdDesc : Store → Option Doc
  | [] => none
  | d :: rest =>
    match findOneSortIdDesc rest with
    | none => some d
    | some m => if d.id < m.id then some m else some d

/-- `getFarmerNumber`: phone number of the document returned by
`findOne().sort(\x7b _id: -1 \x7d)`, or `null`. -/
def getFarmerNumber (s : Store) : Option String :=
  (findOneSortIdDesc s).map Doc.phoneNumber

/-- The schema regex `(\+91)?[0-9]\x7b10\x7d` anchored at both ends,
enforced by `runValidators`: an optional `+91` prefix followed by exactly
ten digits.  (`+91` contains a non-digit, so a string starting with `+91`
can only match through the optional group.) -/
def phoneMatch (p : String) : Bool :=
  let cs := if List.isPrefixOf ("+91").data p.data then p.data.drop 3 else p.data
  cs.length = 10 && cs.all Char.isDigit

/-- The POST handler's normalization: prepend `+91` unless the raw number
already starts with it. -/
def normalizePhone (p : String) : String :=
  if List.isPrefixOf ("+91").data p.data then p else "+91" ++ p

/-- `Farmer.findOneAndUpdate(\x7b\x7d, \x7b name, phoneNumber \x7d,
\x7b upsert: true \x7d)` after validation passed: with an empty filter the
first document in natural order is overwritten (its `_id` kept), and on an
empty collection a fresh document with a new, larger id is inserted. -/
def upsertWrite (s : Store) (name : Option String) (pn : String) : Store :=
  match s with
  | [] => [⟨(s.map Doc.id).foldr max 0 + 1, name, pn⟩]
  | d :: rest => ⟨d.id, name, pn⟩ :: rest

/-- Responses of `POST /api/farmer-number`. -/
inductive PostResponse
  /-- 400 `phoneNumber is required` (the JS falsy test `!phoneNumber`,
  which an absent field or the empty string triggers). -/
  | missingPhone
  /-- 500 `Failed to update farmer number`: `runValidators` rejected the
  normalized number (the only failure the model injects into the write). -/
  | validationFailed
  /-- 200 with the normalized record echoed back. -/
  | updated (name : Option String) (phoneNumber : String)
  deriving DecidableEq, Repr

/-- `POST /api/farmer-number`: requires a (truthy) `phoneNumber`,
normalizes it, validates against the schema regex, and upserts.  Returns
the store after the request and the HTTP response.  On any failure the
store is untouched. -/
def postFarmerNumber (s : Store) (name : Option String) (phoneNumber : String) :
    Store × PostResponse :=
  if phoneNumber = "" then (s, .missingPhone)
  else
    let pn := normalizePhone phoneNumber
    if phoneMatch pn then (upsertWrite s name pn, .updated name pn)
    else (s, .validationFailed)

/-- Responses of `GET /api/farmer-number`. -/
inductive GetResponse
  /-- 404 `Farmer number is not set`. -/
  | notFound
  /-- 200 with the farmer document. -/
  | found (farmer : Doc)
  deriving DecidableEq, Repr

/-- `GET /api/farmer-number`: `Farmer.findOne()` (first document, no
sort), 404 when absent. -/
def getFarmerEndpoint (s : Store) : GetResponse :=
  match findOne s with
  | none => .notFound
  | some f => .found f

/-- Outcome of `axios.get(API_ENDPOINT)` followed by the destructuring
`const \x7b soilmoisture \x7d = response.data`. -/
inductive FetchOutcome
  /-- The GET rejected (network/HTTP error), or `response.data` was not
  destructurable (`null`/`undefined`): an error is thrown. -/
  | error
  /-- A JSON object arrived; `soilmoisture` is its numeric field, `none`
  when the field is absent (destructures to `undefined`, no throw). -/
  | ok (soilmoisture : Option Int)
  deriving DecidableEq, Repr

/-- Outcome of the `Farmer.findOne().sort(...)` read inside the
workflow. -/
inductive LookupOutcome
  /-- The storage read rejected. -/
  | error
  /-- The read completed, yielding `getFarmerNumber`'s result. -/
  | ok (phoneNumber : Option String)
  deriving DecidableEq, Repr

/-- Outcome of the Twilio `client.messages.create` call. -/
inductive DeliveryOutcome
  /-- Provider accepted; a message SID is returned. -/
  | delivered (sid : String)
  /-- Provider rejection or transport failure: the promise rejects. -/
  | rejected
  deriving DecidableEq, Repr

/-- JS `x < y` where `x` may be `undefined`: `undefined < y` is a NaN
comparison and evaluates to `false`. -/
def jsLt (x : Option Int) (y : Int) : Bool :=
  match x with
  | none => false
  | some v => v < y

/-- JS template interpolation of the reading: a number prints decimally,
`undefined` prints as the word `undefined`. -/
def jsShow (x : Option Int) : String :=
  match x with
  | none => "undefined"
  | some v => toString v

/-- The alert text composed by `checkSoilMoisture` when the threshold
fires. -/
def alertMessage (sm : Option Int) : String :=
  "🚨 Alert! Soil moisture is too low (" ++ jsShow sm
    ++ "%). Please irrigate your crops immediately."

/-- The manual-trigger text composed by `GET /api/trigger-sms`. -/
def manualMessage (sm : Option Int) : String :=
  "📢 Manual SMS Triggered! Current Soil Moisture: " ++ jsShow sm
    ++ "%. Please monitor your crops accordingly."

/-- The fixed text of the legacy (in-memory) variant's trigger endpoint. -/
def manualMessageLegacy : String :=
  "This is a manual SMS test! Please check the soil moisture and take appropriate action."

/-- What a call to `sendSMS` did. -/
structure SmsResult where
  /-- The Twilio `messages.create` invocations made, as (to, body). -/
  notifierCalls : List (String × String)
  /-- Whether an error escaped `sendSMS` to its caller. -/
  raised : Bool
  /-- Whether the catch block logged a send error. -/
  errorLogged : Bool
  deriving DecidableEq, Repr

/-- The body of `sendSMS`'s `try`: `client.messages.create` is invoked
(one Notifier call either way) and either resolves with a SID or
rejects. -/
def sendBody (toNumber msg : String) (d : DeliveryOutcome) :
    List (String × String) × Except Unit String :=
  match d with
  | .delivered sid => ([(toNumber, msg)], .ok sid)
  | .rejected => ([(toNumber, msg)], .error ())

/-- `sendSMS`: wraps the create call in `try/catch`; a rejection is
logged and swallowed, never rethrown. -/
def sendSMS (toNumber msg : String) (d : DeliveryOutcome) : SmsResult :=
  match sendBody toNumber msg d with
  | (calls, .ok _sid) => ⟨calls, false, false⟩
  | (calls, .error _) => ⟨calls, false, true⟩

/-- Which console branch a `checkSoilMoisture` run ended in. -/
inductive RunExit
  /-- The `catch` block ran (fetch or storage read threw). -/
  | caughtError
  /-- `Farmer number is not set` warning; early return. -/
  | noFarmer
  /-- Threshold fired and `sendSMS` was called. -/
  | alertSent
  /-- `Soil moisture is above threshold; no SMS sent.` -/
  | aboveThreshold
  deriving DecidableEq, Repr

/-- The observable result of one `checkSoilMoisture` run. -/
structure RunResult where
  /-- Notifier invocations made during the run. -/
  notifierCalls : List (String × String)
  /-- Whether an error escaped `checkSoilMoisture` to its caller. -/
  raised : Bool
  /-- The branch the run ended in. -/
  exit : RunExit
  deriving DecidableEq, Repr

/-- The `try` body of `checkSoilMoisture`: fetch, destructure, look up the
farmer number, compare against 30, send.  A rejection of the fetch or of
the storage read propagates as `Except.error`. -/
def checkBody (fetch : FetchOutcome) (lookup : LookupOutcome)
    (d : DeliveryOutcome) : Except Unit (List (String × String) × RunExit) := do
  let sm ← match fetch with
    | .error => Except.error ()
    | .ok sm => pure sm
  let num? ← match lookup with
    | .error => Except.error ()
    | .ok n => pure n
  match num? with
  | none => pure ([], .noFarmer)
  | some num =>
    if jsLt sm 30 then
      let send := sendSMS num (alertMessage sm) d
      if send.raised then Except.error () else pure (send.notifierCalls, .alertSent)
    else
      pure ([], .aboveThreshold)

/-- `checkSoilMoisture` (the Alert Workflow's `runCheck`): the `try` body
with its `catch`, which logs and absorbs any thrown error. -/
def checkSoilMoisture (fetch : FetchOutcome) (lookup : LookupOutcome)
    (d : DeliveryOutcome) : RunResult :=
  match checkBody fetch lookup d with
  | .error _ => ⟨[], false, .caughtError⟩
  | .ok (calls, ex) => ⟨calls, false, ex⟩

/-- Responses of `GET /api/trigger-sms`. -/
inductive TriggerResponse
  /-- 404 `Farmer number is not set`. -/
  | notFound
  /-- 200 `Manual SMS sent successfully ...`. -/
  | okSent
  /-- 500 `Failed to fetch soil moisture data` (the catch block). -/
  | serverError
  deriving DecidableEq, Repr

/-- The observable result of one `GET /api/trigger-sms` request. -/
structure TriggerResult where
  response : TriggerResponse
  notifierCalls : List (String × String)
  raised : Bool
  deriving DecidableEq, Repr

/-- `GET /api/trigger-sms` (current, Mongo-backed variant): look up the
farmer with `findOne()`, 404 if absent; fetch a fresh reading (500 if the
fetch throws); send the manual message unconditionally — no threshold
comparison — and report success. -/
def triggerSms (s : Store) (fetch : FetchOutcome) (d : DeliveryOutcome) :
    TriggerResult :=
  match findOne s with
  | none => ⟨.notFound, [], false⟩
  | some farmer =>
    match fetch with
    | .error => ⟨.serverError, [], false⟩
    | .ok sm =>
      let send := sendSMS farmer.phoneNumber (manualMessage sm) d
      if send.raised then ⟨.serverError, send.notifierCalls, false⟩
      else ⟨.okSent, send.notifierCalls, false⟩

/-- `GET /api/trigger-sms` (legacy in-memory variant): 404 when the
module-level `farmerNumber` is unset; otherwise sends a fixed test
message — no moisture fetch at all. -/
def triggerSmsLegacy (farmerNumber : Option String) (d : DeliveryOutcome) :
    TriggerResult :=
  match farmerNumber with
  | none => ⟨.notFound, [], false⟩
  | some num =>
    let send := sendSMS num manualMessageLegacy d
    ⟨.okSent, send.notifierCalls, send.raised⟩

/-! ## Helper lemmas -/

/-- Both branches of `checkSoilMoisture`'s outer match set `raised := false`:
the `try/catch` absorbs every thrown error without rethrowing. -/
lemma checkSoilMoisture_raised (f : FetchOutcome) (l : LookupOutcome)
    (d : DeliveryOutcome) : (checkSoilMoisture f l d).raised = false := by
  rcases hcb : checkBody f l d with _ | ⟨calls, ex⟩ <;> simp [checkSoilMoisture, hcb]

/-- The interpolated reading occurs literally inside the alert text. -/
lemma toString_infix_alertMessage (m : Int) :
    (toString m).data <:+: (alertMessage (some m)).data := by
  refine ⟨("🚨 Alert! Soil moisture is too low (").data,
    ("%). Please irrigate your crops immediately.").data, ?_⟩
  simp [alertMessage, jsShow, String.data_append]

/-- A phone number whose normalized form passes validation is not the
empty string (the empty string normalizes to `+91`, which fails). -/
lemma valid_ne_empty {p : String} (h : phoneMatch (normalizePhone p) = true) :
    p ≠ "" := by
  intro hp
  subst hp
  exact absurd h (by decide)

/-- Under the increasing-id invariant, the max-id scan of
`findOneSortIdDesc` lands on the last (most recently inserted) document,
whose id bounds the head's id from above. -/
lemma findOneSortIdDesc_spec (l : Store) (a : Doc)
    (h : idsIncreasing (a :: l) = true) :
    ∃ m, (a :: l).getLast? = some m ∧ findOneSortIdDesc (a :: l) = some m ∧
      a.id ≤ m.id := by
  induction l generalizing a with
  | nil => exact ⟨a, rfl, rfl, Nat.le_refl _⟩
  | cons b l' ih =>
    have hab : a.id < b.id ∧ idsIncreasing (b :: l') = true := by
      simpa [idsIncreasing, Bool.and_eq_true] using h
    obtain ⟨m, hlast, hfind, hble⟩ := ih b hab.2
    refine ⟨m, ?_, ?_, ?_⟩
    · simpa [List.getLast?_cons_cons] using hlast
    · have ham : a.id < m.id := Nat.lt_of_lt_of_le hab.1 hble
      have hstep : (match findOneSortIdDesc (b :: l') with
            | none => some a
            | some x => if a.id < x.id then some x else some a) = some m := by
        rw [hfind]
        exact if_pos ham
      exact hstep
    · exact Nat.le_of_lt (Nat.lt_of_lt_of_le hab.1 hble)

/-! ## Claim theorems -/

/-- C1: with a contact set and a numeric reading fetched, `runCheck`
(`checkSoilMoisture`) invokes the Notifier exactly once — with a message
containing the literal reading value — precisely when the reading is
strictly below 30; for every reading `m ≥ 30` no Notifier call is made. -/
theorem checkSoilMoisture_notifies_iff_below_threshold (m : Int) (num : String)
    (d : DeliveryOutcome) :
    (checkSoilMoisture (.ok (some m)) (.ok (some num)) d).notifierCalls
        = (if m < 30 then [(num, alertMessage (some m))] else []) ∧
    (toString m).data <:+: (alertMessage (some m)).data := by
  refine ⟨?_, toString_infix_alertMessage m⟩
  by_cases h : m < 30 <;>
    cases d <;>
      simp [checkSoilMoisture, checkBody, jsLt, sendSMS, sendBody, h, pure,
        Except.pure, Bind.bind, Except.bind]

/-- C2: `runCheck` with no stored contact, or with a failing Sensor Data
Client call, makes no Notifier call and completes without raising; indeed
no run of `checkSoilMoisture` ever raises to its caller. -/
theorem checkSoilMoisture_silent_without_contact_or_fetch
    (fetch : FetchOutcome) (lookup : LookupOutcome) (d : DeliveryOutcome)
    (sm : Option Int) :
    checkSoilMoisture .error lookup d = ⟨[], false, .caughtError⟩ ∧
    checkSoilMoisture (.ok sm) (.ok none) d = ⟨[], false, .noFarmer⟩ ∧
    (checkSoilMoisture fetch lookup d).raised = false :=
  ⟨rfl, rfl, checkSoilMoisture_raised fetch lookup d⟩

/-- C10: the `catch` of `checkSoilMoisture` also absorbs a failing
Contact Store read: the run ends in the caught-error branch with no
Notifier call and nothing raised — every failure thrown inside the
workflow body is absorbed. -/
theorem checkSoilMoisture_absorbs_lookup_failure (fetch : FetchOutcome)
    (lookup : LookupOutcome) (d : DeliveryOutcome) (sm : Option Int) :
    checkSoilMoisture (.ok sm) .error d = ⟨[], false, .caughtError⟩ ∧
    checkSoilMoisture .error .error d = ⟨[], false, .caughtError⟩ ∧
    (checkSoilMoisture fetch lookup d).raised = false :=
  ⟨rfl, rfl, checkSoilMoisture_raised fetch lookup d⟩

/-- C3 (counterexample): a well-formed response object that merely lacks
the `soilmoisture` field does not make the run fail: destructuring yields
`undefined`, `undefined < 30` is `false`, and the run completes through
the above-threshold branch — not the caught-error (FetchError) branch the
claim requires.  The evaluation is not aborted either: with no contact
stored the same payload still reaches the farmer check downstream of the
fetch (the no-farmer warning branch). -/
theorem malformed_payload_no_fetchError_cex :
    checkSoilMoisture (.ok none) (.ok (some "+919876543210")) (.delivered "SM1")
        = ⟨[], false, .aboveThreshold⟩ ∧
    checkSoilMoisture (.ok none) (.ok none) (.delivered "SM1")
        = ⟨[], false, .noFarmer⟩ ∧
    RunExit.aboveThreshold ≠ RunExit.caughtError ∧
    RunExit.noFarmer ≠ RunExit.caughtError :=
  ⟨rfl, rfl, by decide, by decide⟩

/-- C3 (amended): only a failing network call (or non-destructurable
body) raises a FetchError, which the caller catches, logs and absorbs,
aborting the evaluation; a payload lacking the numeric moisture field
raises nothing — the undefined reading compares `false` against the
threshold, so the run completes through the no-alert branch (or the
no-farmer branch, or the caught-error branch if the store read itself
throws).  In every one of these cases no Notifier call is made and
nothing is raised. -/
theorem fetch_failure_vs_malformed_payload (lookup : LookupOutcome)
    (d : DeliveryOutcome) (num : String) :
    checkSoilMoisture .error lookup d = ⟨[], false, .caughtError⟩ ∧
    checkSoilMoisture (.ok none) (.ok (some num)) d
        = ⟨[], false, .aboveThreshold⟩ ∧
    checkSoilMoisture (.ok none) (.ok none) d = ⟨[], false, .noFarmer⟩ ∧
    checkSoilMoisture (.ok none) .error d = ⟨[], false, .caughtError⟩ ∧
    (checkSoilMoisture (.ok none) lookup d).notifierCalls = [] ∧
    (checkSoilMoisture (.ok none) lookup d).raised = false := by
  refine ⟨rfl, rfl, rfl, rfl, ?_, checkSoilMoisture_raised _ _ _⟩
  cases lookup with
  | error => rfl
  | ok pn => cases pn <;> rfl

/-- On a phone number whose normalized form passes validation, the POST
handler takes the success path: it upserts the normalized record and
echoes it back. -/
lemma postFarmerNumber_valid (s : Store) (n : Option String) (p : String)
    (hv : phoneMatch (normalizePhone p) = true) :
    postFarmerNumber s n p
      = (upsertWrite s n (normalizePhone p), .updated n (normalizePhone p)) := by
  have hne : ¬ (p = "") := valid_ne_empty hv
  simp [postFarmerNumber, hne, hv]

/-- On a store of at most one document — the only stores reachable from an
empty collection through the upsert-by-empty-filter write — an upsert
leaves exactly one document, carrying the written fields. -/
lemma upsertWrite_small (s : Store) (h : s.length ≤ 1) (n : Option String)
    (pn : String) : ∃ i, upsertWrite s n pn = [⟨i, n, pn⟩] := by
  rcases s with _ | ⟨d, rest⟩
  · exact ⟨1, rfl⟩
  · have hrest : rest = [] := by
      cases rest with
      | nil => rfl
      | cons e t =>
        exfalso
        simp only [List.length_cons] at h
        omega
    subst hrest
    exact ⟨d.id, rfl⟩

/-- Updating a nonempty collection overwrites the first document,
keeping its id. -/
lemma upsertWrite_cons (d : Doc) (rest : Store) (n : Option String)
    (pn : String) : upsertWrite (d :: rest) n pn = ⟨d.id, n, pn⟩ :: rest := rfl

/-- C4: upserting name `Ravi` with the bare 10-digit number `9876543210`
stores it normalized with the `+91` prefix, and the latest-phone-number
lookup then returns `+919876543210`; the hypothesis restricts the prior
store to the single-row states reachable through the upsert write. -/
theorem upsert_then_getLatest_normalized (s : Store) (h : s.length ≤ 1) :
    getFarmerNumber (postFarmerNumber s (some "Ravi") "9876543210").1
        = some "+919876543210" ∧
    (postFarmerNumber s (some "Ravi") "9876543210").2
        = .updated (some "Ravi") "+919876543210" := by
  have hval : phoneMatch (normalizePhone "9876543210") = true := by decide
  have hnorm : normalizePhone "9876543210" = "+919876543210" := by decide
  obtain ⟨i, hi⟩ := upsertWrite_small s h (some "Ravi") (normalizePhone "9876543210")
  rw [postFarmerNumber_valid s _ _ hval]
  constructor
  · show getFarmerNumber (upsertWrite s (some "Ravi") (normalizePhone "9876543210"))
        = some "+919876543210"
    rw [hi, hnorm]
    rfl
  · show PostResponse.updated (some "Ravi") (normalizePhone "9876543210")
        = PostResponse.updated (some "Ravi") "+919876543210"
    rw [hnorm]

/-- C4 witness: the scenario run from the empty store. -/
theorem upsert_then_getLatest_normalized_witness :
    ([] : Store).length ≤ 1 ∧
    (getFarmerNumber (postFarmerNumber [] (some "Ravi") "9876543210").1
        = some "+919876543210" ∧
     (postFarmerNumber [] (some "Ravi") "9876543210").2
        = PostResponse.updated (some "Ravi") "+919876543210") :=
  ⟨by decide, upsert_then_getLatest_normalized [] (by decide)⟩

/-- C5 (counterexample): the empty string normalizes to `+91`, which
fails the pattern, yet the handler answers with the 400
`phoneNumber is required` branch — the JS falsy test fires before
validation — not with the claimed ValidationError. -/
theorem empty_phone_missing_not_validation_cex :
    phoneMatch (normalizePhone "") = false ∧
    postFarmerNumber [] none "" = ([], PostResponse.missingPhone) ∧
    PostResponse.missingPhone ≠ PostResponse.validationFailed := by
  refine ⟨by decide, rfl, by decide⟩

/-- C5 (amended): for every *non-empty* phone number whose normalized
form fails the pattern, the upsert fails with ValidationError and the
stored contact is left exactly as it was (no write); the empty string
instead fails the required-field check with a 400, likewise without
writing. -/
theorem invalid_phone_validationFailed_no_write (s : Store) (n : Option String)
    (p : String) (hne : p ≠ "")
    (hbad : phoneMatch (normalizePhone p) = false) :
    postFarmerNumber s n p = (s, .validationFailed) ∧
    postFarmerNumber s n "" = (s, .missingPhone) := by
  constructor
  · simp [postFarmerNumber, hne, hbad]
  · simp [postFarmerNumber]

/-- C5 witness: a concrete malformed number on the empty store. -/
theorem invalid_phone_validationFailed_no_write_witness :
    ("12345" ≠ "" ∧ phoneMatch (normalizePhone "12345") = false) ∧
    (postFarmerNumber [] none "12345" = ([], PostResponse.validationFailed) ∧
     postFarmerNumber [] none "" = ([], PostResponse.missingPhone)) :=
  ⟨⟨by decide, by decide⟩,
    invalid_phone_validationFailed_no_write [] none "12345" (by decide) (by decide)⟩

/-- C6: two successive upserts with valid numbers, starting from a
single-row-reachable store, leave exactly one stored contact and it holds
the second (normalized) number: the write replaces, it does not insert. -/
theorem upsert_twice_leaves_single_contact (s : Store) (n1 n2 : Option String)
    (p1 p2 : String) (hs : s.length ≤ 1)
    (h1 : phoneMatch (normalizePhone p1) = true)
    (h2 : phoneMatch (normalizePhone p2) = true) :
    ∃ i, (postFarmerNumber (postFarmerNumber s n1 p1).1 n2 p2).1
        = [⟨i, n2, normalizePhone p2⟩] ∧
      getFarmerNumber (postFarmerNumber (postFarmerNumber s n1 p1).1 n2 p2).1
        = some (normalizePhone p2) := by
  obtain ⟨i, hi⟩ := upsertWrite_small s hs n1 (normalizePhone p1)
  refine ⟨i, ?_, ?_⟩ <;>
    simp [postFarmerNumber_valid s n1 p1 h1, postFarmerNumber_valid _ n2 p2 h2,
      hi, upsertWrite_cons, getFarmerNumber, findOneSortIdDesc]

/-- C6 witness: two concrete valid numbers from the empty store. -/
theorem upsert_twice_leaves_single_contact_witness :
    (([] : Store).length ≤ 1 ∧ phoneMatch (normalizePhone "1111111111") = true ∧
      phoneMatch (normalizePhone "2222222222") = true) ∧
    (∃ i, (postFarmerNumber (postFarmerNumber [] none "1111111111").1
            none "2222222222").1 = [⟨i, none, normalizePhone "2222222222"⟩] ∧
      getFarmerNumber (postFarmerNumber (postFarmerNumber [] none "1111111111").1
            none "2222222222").1 = some (normalizePhone "2222222222")) :=
  ⟨⟨by decide, by decide, by decide⟩,
    upsert_twice_leaves_single_contact [] none none "1111111111" "2222222222"
      (by decide) (by decide) (by decide)⟩

/-- C7: with a contact stored, `GET /api/trigger-sms` sends the
manual-trigger message embedding whatever reading was fetched — for every
reading value, with no threshold comparison — and reports success; with
no contact stored it answers 404 and makes no Notifier call (in the
legacy in-memory variant as well). -/
theorem triggerSms_bypasses_threshold (farmer : Doc) (rest : Store)
    (sm : Option Int) (d : DeliveryOutcome) (fetch : FetchOutcome) :
    triggerSms (farmer :: rest) (.ok sm) d
        = ⟨.okSent, [(farmer.phoneNumber, manualMessage sm)], false⟩ ∧
    triggerSms [] fetch d = ⟨.notFound, [], false⟩ ∧
    triggerSmsLegacy none d = ⟨.notFound, [], false⟩ := by
  refine ⟨?_, rfl, rfl⟩
  cases d <;> rfl

/-- C8: a rejected Twilio call is logged and swallowed inside `sendSMS`
— the Notifier call is still made, nothing is raised to the caller — so
the scheduler's run never sees a fault and `GET /api/trigger-sms` still
answers success when the provider rejects the message. -/
theorem sendSMS_swallows_deliveryError (toNumber msg : String)
    (d : DeliveryOutcome) (farmer : Doc) (rest : Store) (sm : Option Int) :
    (sendSMS toNumber msg d).raised = false ∧
    (sendSMS toNumber msg .rejected).errorLogged = true ∧
    (sendSMS toNumber msg .rejected).notifierCalls = [(toNumber, msg)] ∧
    (triggerSms (farmer :: rest) (.ok sm) .rejected).response = .okSent ∧
    (checkSoilMoisture (.ok sm) (.ok (some toNumber)) .rejected).raised = false := by
  refine ⟨?_, rfl, rfl, rfl, checkSoilMoisture_raised _ _ _⟩
  cases d <;> rfl

/-- A two-document store such as the legacy, no-validation variant could
have left behind: inserted in id order 1 then 2. -/
def demoStore : Store :=
  [⟨1, some "Ravi", "+919876543210"⟩, ⟨2, some "Asha", "+919123456789"⟩]

/-- C9: on a store holding several documents (ids increasing in insertion
order), the notification lookup reads the most recently inserted (last)
document while `GET /api/farmer-number` returns the first, and on
`demoStore` the two reads indeed name different contacts. -/
theorem multiRecord_latest_vs_first (s : Store) (h : idsIncreasing s = true)
    (h2 : 2 ≤ s.length) :
    (∃ dFirst dLast, findOne s = some dFirst ∧ s.getLast? = some dLast ∧
        getFarmerEndpoint s = .found dFirst ∧
        getFarmerNumber s = some dLast.phoneNumber) ∧
    (idsIncreasing demoStore = true ∧
     getFarmerNumber demoStore = some "+919123456789" ∧
     getFarmerEndpoint demoStore = .found ⟨1, some "Ravi", "+919876543210"⟩ ∧
     getFarmerNumber demoStore
        ≠ some (Doc.phoneNumber ⟨1, some "Ravi", "+919876543210"⟩)) := by
  constructor
  · rcases s with _ | ⟨a, l⟩
    · exact absurd h2 (by decide)
    · obtain ⟨m, hlast, hfind, _⟩ := findOneSortIdDesc_spec l a h
      exact ⟨a, m, rfl, hlast, rfl, by simp [getFarmerNumber, hfind]⟩
  · exact ⟨by decide, by decide, by decide, by decide⟩

/-- C9 witness: the invariant and the two-record premise hold of
`demoStore`, and the theorem instantiates there. -/
theorem multiRecord_latest_vs_first_witness :
    (idsIncreasing demoStore = true ∧ 2 ≤ demoStore.length) ∧
    ((∃ dFirst dLast, findOne demoStore = some dFirst ∧
        demoStore.getLast? = some dLast ∧
        getFarmerEndpoint demoStore = .found dFirst ∧
        getFarmerNumber demoStore = some dLast.phoneNumber) ∧
     (idsIncreasing demoStore = true ∧
      getFarmerNumber demoStore = some "+919123456789" ∧
      getFarmerEndpoint demoStore = .found ⟨1, some "Ravi", "+919876543210"⟩ ∧
      getFarmerNumber demoStore
        ≠ some (Doc.phoneNumber ⟨1, some "Ravi", "+919876543210"⟩))) :=
  ⟨⟨by decide, by decide⟩,
    multiRecord_latest_vs_first demoStore (by decide) (by decide)⟩
